import Mathlib

/-!
Verification of the proverb-manager agent (`src/agent/app/agent.py`,
`src/agent/app/main.py`).

The tool functions of the agent are embedded shallowly:

* `Deps` mirrors the pydantic `Deps` model: the proverb list plus the three
  optional provider API keys.  The two network client handles
  (`httpx_client`, `tavily_client`) are opaque external collaborators with
  no observable data content and are not fields of the embedding.
* Each tool function takes the session state (and, for provider-backed
  tools, the provider's HTTP response as an explicit argument in place of
  the network call) and returns the resulting state paired with its result,
  so that in-place mutation of `ctx.deps.state` becomes explicit state
  passing.
* `r.raise_for_status()` is modelled by branching on the response status:
  a status of 400 or above is a transport error (a distinct outcome
  constructor), below 400 the body is consumed.
* Python's `f"{x:0.0f}"` rounds half-to-even; `roundHalfEven` implements
  that on ℚ.
-/

namespace AgUiApp

/-- The session state (pydantic model `Deps` in `agent.py`): the proverb
list and the three optional provider credentials read from the
environment.  The two network client handles are opaque collaborators and
carry no data, so they are omitted. -/
structure Deps where
  proverbs : List String
  weather_api_key : Option String
  geo_api_key : Option String
  tavily_api_key : Option String
deriving DecidableEq, Repr

/-- The `ag_ui.core.EventType.STATE_SNAPSHOT` discriminator. -/
def EventType_STATE_SNAPSHOT : String := "STATE_SNAPSHOT"

/-- `ag_ui.core.StateSnapshotEvent`: the event returned by the two mutating
proverb tools.  Its `snapshot` field is whatever the tool passes as
`snapshot=`; in `agent.py` that is `ctx.deps.state`, the whole `Deps`
record. -/
structure StateSnapshotEvent where
  type : String
  snapshot : Deps
deriving DecidableEq, Repr

/-- Tool `get_proverbs`: returns the current list of proverbs; the state is
untouched. -/
def get_proverbs (s : Deps) : Deps × List String :=
  (s, s.proverbs)

/-- Tool `add_proverbs`: `ctx.deps.state.proverbs.extend(proverbs)` then
returns a `StateSnapshotEvent` whose snapshot is `ctx.deps.state`. -/
def add_proverbs (s : Deps) (proverbs : List String) :
    Deps × StateSnapshotEvent :=
  let s2 := { s with proverbs := s.proverbs ++ proverbs }
  (s2, ⟨EventType_STATE_SNAPSHOT, s2⟩)

/-- Tool `set_proverbs`: `ctx.deps.state.proverbs = proverbs` then returns
a `StateSnapshotEvent` whose snapshot is `ctx.deps.state`. -/
def set_proverbs (s : Deps) (proverbs : List String) :
    Deps × StateSnapshotEvent :=
  let s2 := { s with proverbs := proverbs }
  (s2, ⟨EventType_STATE_SNAPSHOT, s2⟩)

/-- An HTTP response from a provider: its status code and (decoded JSON)
body.  `raise_for_status` in the tools raises for status ≥ 400. -/
structure HttpResponse (α : Type) where
  status : Nat
  body : α
deriving DecidableEq, Repr

/-- One entry of the `features` array of the geocoding provider's body:
its `center` is the pair `[longitude, latitude]`. -/
structure GeoFeature where
  center : ℚ × ℚ
deriving DecidableEq, Repr

/-- The decoded JSON body of the geocoding provider. -/
structure GeoData where
  features : List GeoFeature
deriving DecidableEq, Repr

/-- The geocode result `{"lat": ..., "lng": ...}`. -/
structure LatLng where
  lat : ℚ
  lng : ℚ
deriving DecidableEq, Repr

/-- The possible outcomes of `get_lat_lng`: a returned coordinate pair, a
fatal transport error (`raise_for_status`), or the retryable
`ModelRetry("Could not find the location")` signal. -/
inductive GeoOutcome where
  | ok (r : LatLng)
  | transportError (status : Nat)
  | modelRetry (msg : String)
deriving DecidableEq, Repr

/-- Tool `get_lat_lng`.  The location description only feeds the request
URL; the provider's response is the explicit `resp` argument.  With no
`geo_api_key` the provider is never called and the fixed fallback
`{"lat": 51.1, "lng": -0.1}` is returned. -/
def get_lat_lng (s : Deps) (location_description : String)
    (resp : HttpResponse GeoData) : Deps × GeoOutcome :=
  match s.geo_api_key with
  | none => (s, .ok ⟨51.1, -0.1⟩)
  | some _ =>
    if 400 ≤ resp.status then (s, .transportError resp.status)
    else
      match resp.body.features with
      | [] => (s, .modelRetry "Could not find the location")
      | f :: _ => (s, .ok ⟨f.center.2, f.center.1⟩)

/-- Whether a `GeoOutcome` is the fatal transport failure (an observer on
the outcome type, used to state that the retry signal is distinct from
it). -/
def GeoOutcome.isTransportError : GeoOutcome → Bool
  | .transportError _ => true
  | _ => false

/-- Round a rational to the nearest integer, ties to the even integer:
the rounding performed by Python's fixed-point formatting `f"{x:0.0f}"`
used in `get_weather`. -/
def roundHalfEven (q : ℚ) : ℤ :=
  if q - ⌊q⌋ < 1 / 2 then ⌊q⌋
  else if 1 / 2 < q - ⌊q⌋ then ⌊q⌋ + 1
  else if ⌊q⌋ % 2 = 0 then ⌊q⌋ else ⌊q⌋ + 1

/-- The `data.values` object of the weather provider's JSON body. -/
structure WeatherValues where
  temperatureApparent : ℚ
  weatherCode : ℤ
deriving DecidableEq, Repr

/-- The weather result `{"temperature": ..., "description": ...}`. -/
structure WeatherResult where
  temperature : String
  description : String
deriving DecidableEq, Repr

/-- The possible outcomes of `get_weather`: a result, or a fatal transport
error from `raise_for_status`. -/
inductive WeatherOutcome where
  | ok (r : WeatherResult)
  | transportError (status : Nat)
deriving DecidableEq, Repr

/-- The `code_lookup` table of `get_weather`, in source order. -/
def code_lookup : List (ℤ × String) :=
  [(1000, "Clear, Sunny"),
   (1100, "Mostly Clear"),
   (1101, "Partly Cloudy"),
   (1102, "Mostly Cloudy"),
   (1001, "Cloudy"),
   (2000, "Fog"),
   (2100, "Light Fog"),
   (4000, "Drizzle"),
   (4001, "Rain"),
   (4200, "Light Rain"),
   (4201, "Heavy Rain"),
   (5000, "Snow"),
   (5001, "Flurries"),
   (5100, "Light Snow"),
   (5101, "Heavy Snow"),
   (6000, "Freezing Drizzle"),
   (6001, "Freezing Rain"),
   (6200, "Light Freezing Rain"),
   (6201, "Heavy Freezing Rain"),
   (7000, "Ice Pellets"),
   (7101, "Heavy Ice Pellets"),
   (7102, "Light Ice Pellets"),
   (8000, "Thunderstorm")]

/-- Tool `get_weather`.  Latitude and longitude only feed the request
parameters; the provider's response is the explicit `resp` argument.
With no `weather_api_key` the provider is never called and the fixed
fallback is returned (the source literal is `"21 °C"`, with a space
before the degree sign).  On success the apparent temperature is
formatted with `f"{...:0.0f}°C"` (round half to even; the sign of a
negative zero is not modelled) and the weather code is translated through
`code_lookup` with default `"Unknown"`. -/
def get_weather (s : Deps) (lat lng : ℚ) (resp : HttpResponse WeatherValues) :
    Deps × WeatherOutcome :=
  match s.weather_api_key with
  | none => (s, .ok ⟨"21 °C", "Sunny"⟩)
  | some _ =>
    if 400 ≤ resp.status then (s, .transportError resp.status)
    else
      (s, .ok ⟨toString (roundHalfEven resp.body.temperatureApparent) ++ "°C",
               (code_lookup.lookup resp.body.weatherCode).getD "Unknown"⟩)

/-- A Tavily search result (`TavilySearchResult` in `agent.py`). -/
structure TavilySearchResult where
  title : String
  url : String
  content : String
  score : ℚ
deriving DecidableEq, Repr

/-- The `search_kwargs` dictionary that `tavily_search_tool` passes to the
provider's `search` call, as a key/value list: `search_depth` and `topic`
are always present; `time_range` is added only when it is not `None`.
The tool's Python signature fills an omitted `search_deep` with
`"basic"`, an omitted `topic` with `"general"`, and an omitted
`time_range` with `None`. -/
def search_kwargs (search_deep : String) (topic : String)
    (time_range : Option String) : List (String × String) :=
  [("search_depth", search_deep), ("topic", topic)] ++
    (match time_range with
     | some t => [("time_range", t)]
     | none => [])

/-- Tool `tavily_search_tool`: forwards the query with `search_kwargs` to
the provider (whose validated `results` array is the explicit `results`
argument) and returns it; the session state is untouched. -/
def tavily_search_tool (s : Deps) (query : String) (search_deep : String)
    (topic : String) (time_range : Option String)
    (results : List TavilySearchResult) :
    Deps × (List (String × String) × List TavilySearchResult) :=
  (s, (search_kwargs search_deep topic time_range, results))

/-- A local timestamp, standing for `datetime.now()`. -/
structure DateTime where
  year : Nat
  month : Nat
  day : Nat
  hour : Nat
  minute : Nat
  second : Nat
deriving DecidableEq, Repr

/-- Zero-pad a number to two digits, as the `%m`, `%d`, `%H`, `%M` and
`%S` directives of `strftime` do. -/
def pad2 (n : Nat) : String :=
  if n < 10 then "0" ++ toString n else toString n

/-- Zero-pad a year to four digits, as the `%Y` directive of `strftime`
does for years below 10000. -/
def pad4 (n : Nat) : String :=
  if n < 10 then "000" ++ toString n
  else if n < 100 then "00" ++ toString n
  else if n < 1000 then "0" ++ toString n
  else toString n

/-- Tool `get_current_date`: formats the clock reading (an explicit
argument in place of `datetime.now()`) as `%Y-%m-%d %H:%M:%S`; the
session state is untouched. -/
def get_current_date (s : Deps) (now : DateTime) : Deps × String :=
  (s, pad4 now.year ++ "-" ++ pad2 now.month ++ "-" ++ pad2 now.day ++ " "
    ++ pad2 now.hour ++ ":" ++ pad2 now.minute ++ ":" ++ pad2 now.second)

end AgUiApp

namespace AgUiApp

/-- C1: for every session state and every list of proverbs P,
`set_proverbs(P)` followed by `get_proverbs()` returns exactly P, in the
same order. -/
theorem set_then_get_proverbs (s : Deps) (P : List String) :
    (get_proverbs (set_proverbs s P).1).2 = P := by
  simp [get_proverbs, set_proverbs]

/-- C2: starting from a session state whose proverb list is empty,
`add_proverbs(P1)` then `add_proverbs(P2)` then `get_proverbs()` returns
P1 ++ P2, order preserved and duplicates retained. -/
theorem add_add_get_proverbs (s : Deps) (P1 P2 : List String)
    (h : s.proverbs = []) :
    (get_proverbs ((add_proverbs (add_proverbs s P1).1 P2).1)).2 = P1 ++ P2 := by
  simp [get_proverbs, add_proverbs, h]

/-- Witness for C2 at a concrete state and concrete lists, with a
duplicate retained across the two calls. -/
theorem add_add_get_proverbs_witness :
    (get_proverbs ((add_proverbs
        (add_proverbs ⟨[], none, none, none⟩ ["a", "b"]).1 ["b", "c"]).1)).2
      = ["a", "b", "b", "c"] :=
  add_add_get_proverbs ⟨[], none, none, none⟩ ["a", "b"] ["b", "c"] rfl

/-- C4 counterexample: two session states with the same proverb list but
different `geo_api_key` fields produce different State Snapshot Events
from the same `set_proverbs` call, so the event's payload is not a
function of the proverb list alone: it carries the credential fields as
well. -/
theorem snapshot_not_proverbs_only :
    ((set_proverbs ⟨[], none, none, none⟩ ["a"]).2).snapshot.proverbs
        = ((set_proverbs ⟨[], none, some "k", none⟩ ["a"]).2).snapshot.proverbs
      ∧ (set_proverbs ⟨[], none, none, none⟩ ["a"]).2
        ≠ (set_proverbs ⟨[], none, some "k", none⟩ ["a"]).2 := by
  constructor
  · rfl
  · decide

/-- C4 amended: every State Snapshot Event returned by `add_proverbs` or
`set_proverbs` carries as its payload the entire post-mutation session
state (credential fields included), whose proverb list is the list as it
stands after the mutation. -/
theorem snapshot_is_post_mutation_state (s : Deps) (P : List String) :
    (add_proverbs s P).2.type = EventType_STATE_SNAPSHOT
      ∧ (add_proverbs s P).2.snapshot = (add_proverbs s P).1
      ∧ (add_proverbs s P).2.snapshot.proverbs = s.proverbs ++ P
      ∧ (set_proverbs s P).2.type = EventType_STATE_SNAPSHOT
      ∧ (set_proverbs s P).2.snapshot = (set_proverbs s P).1
      ∧ (set_proverbs s P).2.snapshot.proverbs = P := by
  simp [add_proverbs, set_proverbs]

/-- C6: with a geocoding credential configured, an HTTP-successful
provider response whose `features` array is empty makes `get_lat_lng`
raise the retryable "Could not find the location" signal, which is a
different outcome from a transport failure. -/
theorem get_lat_lng_empty_features_retries (s : Deps) (k : String)
    (loc : String) (status : Nat) (hk : s.geo_api_key = some k)
    (hs : status < 400) :
    (get_lat_lng s loc ⟨status, ⟨[]⟩⟩).2 = .modelRetry "Could not find the location"
      ∧ (get_lat_lng s loc ⟨status, ⟨[]⟩⟩).2.isTransportError = false := by
  simp [get_lat_lng, GeoOutcome.isTransportError, hk, Nat.not_le.mpr hs]

/-- Witness for C6: a concrete state with a geocoding key and a concrete
status-200 empty-features response. -/
theorem get_lat_lng_empty_features_retries_witness :
    (get_lat_lng ⟨[], none, some "k", none⟩ "Nowhere" ⟨200, ⟨[]⟩⟩).2
        = .modelRetry "Could not find the location"
      ∧ (get_lat_lng ⟨[], none, some "k", none⟩ "Nowhere"
          ⟨200, ⟨[]⟩⟩).2.isTransportError = false :=
  get_lat_lng_empty_features_retries ⟨[], none, some "k", none⟩ "k" "Nowhere"
    200 rfl (by decide)

/-- C7: with no geocoding credential configured, `get_lat_lng` returns
exactly `{lat: 51.1, lng: -0.1}`, for every location description and
whatever the (never consulted) provider response would have been. -/
theorem get_lat_lng_no_key_fallback (s : Deps) (loc : String)
    (resp : HttpResponse GeoData) (hk : s.geo_api_key = none) :
    (get_lat_lng s loc resp).2 = .ok ⟨51.1, -0.1⟩ := by
  simp [get_lat_lng, hk]

/-- Witness for C7 at a concrete keyless state, location text and
response. -/
theorem get_lat_lng_no_key_fallback_witness :
    (get_lat_lng ⟨[], none, none, none⟩ "London" ⟨404, ⟨[]⟩⟩).2
      = .ok ⟨51.1, -0.1⟩ :=
  get_lat_lng_no_key_fallback ⟨[], none, none, none⟩ "London" ⟨404, ⟨[]⟩⟩ rfl

/-- C8: with a geocoding credential configured and an HTTP-successful
response whose `features` array is nonempty, `get_lat_lng` returns the
first entry's coordinates, reading its `center` as
`[longitude, latitude]`: the returned `lat` is the center's second
element and the returned `lng` its first. -/
theorem get_lat_lng_first_feature (s : Deps) (k : String) (loc : String)
    (status : Nat) (f : GeoFeature) (fs : List GeoFeature)
    (hk : s.geo_api_key = some k) (hs : status < 400) :
    (get_lat_lng s loc ⟨status, ⟨f :: fs⟩⟩).2
      = .ok ⟨f.center.2, f.center.1⟩ := by
  simp [get_lat_lng, hk, Nat.not_le.mpr hs]

/-- Witness for C8: a concrete response whose first feature has center
`[-0.1276, 51.5072]` yields `lat = 51.5072`, `lng = -0.1276`. -/
theorem get_lat_lng_first_feature_witness :
    (get_lat_lng ⟨[], none, some "k", none⟩ "London"
        ⟨200, ⟨[⟨(-0.1276, 51.5072)⟩, ⟨(2.3522, 48.8566)⟩]⟩⟩).2
      = .ok ⟨51.5072, -0.1276⟩ :=
  get_lat_lng_first_feature ⟨[], none, some "k", none⟩ "k" "London" 200
    ⟨(-0.1276, 51.5072)⟩ [⟨(2.3522, 48.8566)⟩] rfl (by decide)

/-- The integer produced by `roundHalfEven` is within 1/2 of its
argument: the formatting really rounds to zero decimal places. -/
theorem roundHalfEven_close (q : ℚ) :
    |q - (roundHalfEven q : ℚ)| ≤ 1 / 2 := by
  have h0 : (⌊q⌋ : ℚ) ≤ q := Int.floor_le q
  have h1 : q < ⌊q⌋ + 1 := Int.lt_floor_add_one q
  unfold roundHalfEven
  split_ifs with hlt hgt hev
  · rw [abs_of_nonneg (by linarith)]
    linarith
  · rw [abs_of_nonpos (by push_cast; linarith)]
    push_cast
    linarith
  · rw [abs_of_nonneg (by linarith)]
    linarith
  · rw [abs_of_nonpos (by push_cast; linarith)]
    push_cast
    linarith

/-- C3 counterexample: with no weather credential, `get_weather` does not
return the temperature string `"21°C"`: the source's fallback literal is
`"21 °C"`, with a space before the degree sign. -/
theorem get_weather_no_key_not_spec_literal :
    (get_weather ⟨[], none, none, none⟩ 0 0 ⟨200, ⟨0, 0⟩⟩).2
      ≠ .ok ⟨"21°C", "Sunny"⟩ := by
  decide

/-- C3 amended: with no weather credential configured, `get_weather`
returns exactly `{"temperature": "21 °C", "description": "Sunny"}`, for
every latitude/longitude input and whatever the (never consulted)
provider response would have been. -/
theorem get_weather_no_key_fallback (s : Deps) (lat lng : ℚ)
    (resp : HttpResponse WeatherValues) (hk : s.weather_api_key = none) :
    (get_weather s lat lng resp).2 = .ok ⟨"21 °C", "Sunny"⟩ := by
  simp [get_weather, hk]

/-- Witness for the amended C3 at a concrete keyless state. -/
theorem get_weather_no_key_fallback_witness :
    (get_weather ⟨[], none, none, none⟩ 51.5 (-0.12) ⟨500, ⟨3, 1000⟩⟩).2
      = .ok ⟨"21 °C", "Sunny"⟩ :=
  get_weather_no_key_fallback ⟨[], none, none, none⟩ 51.5 (-0.12)
    ⟨500, ⟨3, 1000⟩⟩ rfl

/-- C5: on every HTTP-successful provider response, `get_weather` returns
the apparent temperature rounded to zero decimal places (the integer in
the result is within 1/2 of the raw value) suffixed with `"°C"`, and the
description obtained from the 23-entry `code_lookup` table with default
`"Unknown"`; in particular `weatherCode 4001` with
`temperatureApparent 17.6` yields `{"temperature": "18°C",
"description": "Rain"}`, and the unmapped code 9999 yields
`"Unknown"`. -/
theorem get_weather_success_mapping (s : Deps) (k : String) (lat lng : ℚ)
    (status : Nat) (v : WeatherValues)
    (hk : s.weather_api_key = some k) (hs : status < 400) :
    |v.temperatureApparent - (roundHalfEven v.temperatureApparent : ℚ)| ≤ 1 / 2
      ∧ (get_weather s lat lng ⟨status, v⟩).2
        = .ok ⟨toString (roundHalfEven v.temperatureApparent) ++ "°C",
               (code_lookup.lookup v.weatherCode).getD "Unknown"⟩
      ∧ code_lookup.length = 23
      ∧ (get_weather s lat lng ⟨status, ⟨17.6, 4001⟩⟩).2
        = .ok ⟨"18°C", "Rain"⟩
      ∧ (get_weather s lat lng ⟨status, ⟨17.6, 9999⟩⟩).2
        = .ok ⟨"18°C", "Unknown"⟩ := by
  have hns : ¬ 400 ≤ status := Nat.not_le.mpr hs
  have hre : roundHalfEven (17.6 : ℚ) = 18 := by
    have hf : ⌊(17.6 : ℚ)⌋ = 17 := by norm_num
    rw [roundHalfEven, hf]
    norm_num
  refine ⟨roundHalfEven_close _, ?_, by decide, ?_, ?_⟩ <;>
    simp [get_weather, hk, hns, hre] <;> decide

/-- Witness for C5 at the concrete response of the spec's example
(`temperatureApparent 17.6`, `weatherCode 4001`). -/
theorem get_weather_success_mapping_witness :
    |(17.6 : ℚ) - ((roundHalfEven 17.6 : ℤ) : ℚ)| ≤ 1 / 2
      ∧ (get_weather ⟨[], some "k", none, none⟩ 51.5 (-0.12)
          ⟨200, ⟨17.6, 4001⟩⟩).2
        = .ok ⟨toString (roundHalfEven (17.6 : ℚ)) ++ "°C",
               (code_lookup.lookup (4001 : ℤ)).getD "Unknown"⟩
      ∧ code_lookup.length = 23
      ∧ (get_weather ⟨[], some "k", none, none⟩ 51.5 (-0.12)
          ⟨200, ⟨17.6, 4001⟩⟩).2 = .ok ⟨"18°C", "Rain"⟩
      ∧ (get_weather ⟨[], some "k", none, none⟩ 51.5 (-0.12)
          ⟨200, ⟨17.6, 9999⟩⟩).2 = .ok ⟨"18°C", "Unknown"⟩ :=
  get_weather_success_mapping ⟨[], some "k", none, none⟩ "k" 51.5 (-0.12)
    200 ⟨17.6, 4001⟩ rfl (by decide)

/-- C9 counterexample: with every optional parameter omitted (so the
Python signature fills `search_deep = "basic"`, `topic = "general"`,
`time_range = None`), the provider call still carries the
`search_depth` and `topic` keys: omitted optionals other than the
recency filter are sent, not left to the provider's defaults. -/
theorem search_kwargs_sends_omitted_optionals :
    ("search_depth", "basic") ∈ search_kwargs "basic" "general" none
      ∧ ("topic", "general") ∈ search_kwargs "basic" "general" none := by
  decide

/-- C9 amended: the search tool always forwards `search_depth` and
`topic` to the provider (carrying their defaults `"basic"` and
`"general"` when the caller omitted them); only the recency filter is
conditional: `time_range` appears in the provider call exactly when it
was supplied, and with the supplied value. -/
theorem search_kwargs_time_range_conditional (search_deep topic : String)
    (time_range : Option String) :
    ("search_depth", search_deep) ∈ search_kwargs search_deep topic time_range
      ∧ ("topic", topic) ∈ search_kwargs search_deep topic time_range
      ∧ ∀ v, ("time_range", v) ∈ search_kwargs search_deep topic time_range
          ↔ time_range = some v := by
  refine ⟨by simp [search_kwargs], by simp [search_kwargs], fun v => ?_⟩
  cases time_range <;> simp [search_kwargs, eq_comm]

/-- C10: the proverb list is mutated only by `add_proverbs` and
`set_proverbs`: every other tool function returns the session state it
was given, unchanged — in particular `get_proverbs` has no side
effect. -/
theorem only_mutators_touch_proverbs (s : Deps) (loc : String)
    (gresp : HttpResponse GeoData) (lat lng : ℚ)
    (wresp : HttpResponse WeatherValues) (query : String)
    (search_deep topic : String) (time_range : Option String)
    (results : List TavilySearchResult) (now : DateTime) :
    (get_proverbs s).1 = s
      ∧ (get_lat_lng s loc gresp).1 = s
      ∧ (get_weather s lat lng wresp).1 = s
      ∧ (tavily_search_tool s query search_deep topic time_range results).1 = s
      ∧ (get_current_date s now).1 = s := by
  refine ⟨rfl, ?_, ?_, rfl, rfl⟩
  · unfold get_lat_lng
    cases s.geo_api_key
    · rfl
    · by_cases h : 400 ≤ gresp.status
      · simp [h]
      · cases gresp.body.features <;> simp [h]
  · unfold get_weather
    cases s.weather_api_key
    · rfl
    · by_cases h : 400 ≤ wresp.status <;> simp [h]

end AgUiApp
